import Mathlib

/-!
Shallow embedding of the TFTP engine of cjvirtucio87/tftp-go: the wire codec
of src/pkg/tftp/operations.go, the dispatch loop and per-transfer session of
src/pkg/tftp/server.go, and the client of the unnamed client source file.

Bytes are modelled as natural numbers; a buffer off the wire is a List Nat
whose entries are below 256.  Go uint16 values are Nat with explicit
reduction modulo 65536 wherever the Go code relies on unsigned overflow.
Error values keep the constant prefix of the corresponding fmt.Errorf call;
interpolated data is omitted from the modelled message.
-/

namespace Tftp

/-- DatagramSize constant: 2-byte op-code, 2-byte block, up to 512 bytes of
payload. -/
def DatagramSize : Nat := 516

/-- BlockSize = DatagramSize - 4, accounting for the op-code and block
number header. -/
def BlockSize : Nat := DatagramSize - 4

/-- Big-endian bytes of a 16-bit value, as binary.Write BigEndian uint16
produces. -/
def u16be (v : Nat) : List Nat := [v / 256 % 256, v % 256]

/-- Value of two big-endian bytes, as binary.Read BigEndian uint16 reads. -/
def be16 (x y : Nat) : Nat := x % 256 * 256 + y % 256

/-- bytes.Buffer.ReadString(0) composed with strings.TrimRight(s, zero):
the bytes before the first zero byte, together with the remainder of the
buffer after that zero byte; none when the buffer holds no zero byte, the
case where ReadString reports io.EOF and the callers fail. -/
def readString0 : List Nat → Option (List Nat × List Nat)
  | [] => none
  | b :: rest =>
    if b = 0 then some ([], rest)
    else
      match readString0 rest with
      | none => none
      | some (s, r) => some (b :: s, r)

/-- ASCII lowering of one byte.  strings.EqualFold and strings.ToLower use
Unicode folding, but no non-ASCII code point folds to any letter of the
literal octet, so ASCII folding is exact for the comparisons modelled
here. -/
def asciiToLower (b : Nat) : Nat := if 65 ≤ b ∧ b ≤ 90 then b + 32 else b

/-- The byte string of the literal octet. -/
def octetBytes : List Nat := [111, 99, 116, 101, 116]

/-- strings.EqualFold(octet, mode) on the bytes of the mode field. -/
def equalFoldOctet (mode : List Nat) : Bool :=
  mode.map asciiToLower == octetBytes

/-- ReadRequest packet; the string fields are byte lists. -/
structure ReadRequest where
  filename : List Nat
  mode : List Nat
deriving Repr, DecidableEq

/-- The io.Reader a Data packet holds: an in-memory byte source
(bytes.NewReader) or a reader whose Read calls fail with a fixed error. -/
inductive Reader where
  | bytes (bs : List Nat)
  | failing (msg : String)
deriving Repr, DecidableEq

/-- Data packet; block is a uint16 counter. -/
structure Data where
  block : Nat
  payload : Reader
deriving Repr, DecidableEq

/-- Err packet; error is the uint16 error code. -/
structure Err where
  error : Nat
  message : List Nat
deriving Repr, DecidableEq

/-- Ack.MarshalBinary of src/pkg/tftp/operations.go: op-code 4 then the
block number, written to a bytes.Buffer, which cannot fail. -/
def ackMarshalBinary (a : Nat) : List Nat := u16be 4 ++ u16be a

/-- Ack.UnmarshalBinary (pointer receiver) of src/pkg/tftp/operations.go
lines 46-60: read the op-code (io.EOF when fewer than two bytes remain),
require op-code 4, then read the block number.  No upper bound is placed on
the buffer length; trailing bytes are ignored. -/
def ackUnmarshalBinary : List Nat → Except String Nat
  | b0 :: b1 :: rest =>
    if be16 b0 b1 ≠ 4 then .error "invalid code for acknowledgement packet"
    else
      match rest with
      | b2 :: b3 :: _ => .ok (be16 b2 b3)
      | _ => .error "EOF"
  | _ => .error "encountered error reading binary into operation code"

/-- Data.MarshalBinary (pointer receiver) of src/pkg/tftp/operations.go
lines 67-89.  The block field of the receiver is incremented first, before any
write, with uint16 overflow wrapping; the header writes to the bytes.Buffer
cannot fail; io.CopyN then moves up to BlockSize payload bytes, and the
io.EOF that CopyN reports for a source shorter than BlockSize is exempted
from the error check.  The result pairs the produced buffer (or the CopyN
error) with the mutated receiver: block already incremented on both paths,
and the payload reader advanced by the bytes CopyN consumed. -/
def dataMarshalBinary (d : Data) : Except String (List Nat) × Data :=
  let newBlock := (d.block + 1) % 65536
  match d.payload with
  | .failing msg =>
    (.error ("error writing payload up to block size: " ++ msg),
     { block := newBlock, payload := .failing msg })
  | .bytes bs =>
    (.ok (u16be 3 ++ u16be newBlock ++ bs.take BlockSize),
     { block := newBlock, payload := .bytes (bs.drop BlockSize) })

/-- Data.UnmarshalBinary (pointer receiver) of src/pkg/tftp/operations.go
lines 91-120: reject buffers shorter than the 4-byte header, reject buffers
longer than DatagramSize, require op-code 3, then read the block number;
the payload is every byte after the header. -/
def dataUnmarshalBinary (b : List Nat) : Except String (Nat × List Nat) :=
  if b.length < 4 then .error "missing header bytes in binary"
  else if DatagramSize < b.length then .error "binary size exceeds DatagramSize limit"
  else
    match b with
    | b0 :: b1 :: b2 :: b3 :: rest =>
      if be16 b0 b1 ≠ 3 then .error "expected data code"
      else .ok (be16 b2 b3, rest)
    | _ => .error "missing header bytes in binary"

/-- Err.MarshalBinary of src/pkg/tftp/operations.go lines 140-160: op-code
5, the error code, then io.CopyN(buffer, message reader, DatagramSize).
CopyN reports io.EOF whenever the source holds fewer than DatagramSize
bytes and, unlike Data.MarshalBinary, this function does not exempt io.EOF,
so every message shorter than 516 bytes makes the call fail.  No zero
terminator is written (though the Grow call reserves space for one). -/
def errMarshalBinary (e : Err) : Except String (List Nat) :=
  if e.message.length < DatagramSize then
    .error "error writing error message to buffer: EOF"
  else .ok (u16be 5 ++ u16be (e.error % 65536) ++ e.message.take DatagramSize)

/-- Err.UnmarshalBinary of src/pkg/tftp/operations.go lines 162-184, as the
parse the method body computes (the Go receiver is a value, so a caller
never observes the fields the method assigns): op-code 5, the error code
(io.EOF when fewer than four header bytes), then ReadString(0) with the
trailing zero trimmed; a buffer with no zero byte after the header fails
with the io.EOF that ReadString returns. -/
def errUnmarshalBinary : List Nat → Except String Err
  | b0 :: b1 :: rest =>
    if be16 b0 b1 ≠ 5 then .error "invalid code for error packet"
    else
      match rest with
      | b2 :: b3 :: rest2 =>
        match readString0 rest2 with
        | none => .error "EOF"
        | some (msg, _) => .ok { error := be16 b2 b3, message := msg }
      | _ => .error "error attempting to unmarshal binary into ErrCode"
  | _ => .error "encountered error reading binary into operation code"

/-- ReadRequest.MarshalBinary of src/pkg/tftp/operations.go lines 191-221:
op-code 1, filename, zero delimiter, mode, zero delimiter; bytes.Buffer
writes cannot fail. -/
def rrqMarshalBinary (r : ReadRequest) : List Nat :=
  u16be 1 ++ r.filename ++ [0] ++ r.mode ++ [0]

/-- ReadRequest.UnmarshalBinary (pointer receiver) of
src/pkg/tftp/operations.go lines 223-261: op-code 1; filename up to the
first zero byte, which must be present and enclose a non-empty name; mode
up to the next zero byte, which must be present and enclose a non-empty
string; finally the mode must satisfy strings.EqualFold with octet,
otherwise the unsupported-mode error is returned. -/
def rrqUnmarshalBinary : List Nat → Except String ReadRequest
  | b0 :: b1 :: rest =>
    if be16 b0 b1 ≠ 1 then .error "invalid code for read request packet"
    else
      match readString0 rest with
      | none => .error "error reading filename"
      | some (fname, rest2) =>
        if fname.length = 0 then .error "invalid filename"
        else
          match readString0 rest2 with
          | none => .error "invalid mode"
          | some (mode, _) =>
            if mode.length = 0 then .error "invalid mode"
            else if ¬ equalFoldOctet mode then .error "unsupported read request mode"
            else .ok { filename := fname, mode := mode }
  | _ => .error "binary does not contain OpCode header"

/-- The closed result type of the package-level classifier: it can only
ever produce one of these three variants. -/
inductive Operation where
  | rrq (r : ReadRequest)
  | ack (a : Nat)
  | err (e : Err)
deriving Repr, DecidableEq

/-- Package-level UnmarshalBinary of src/pkg/tftp/operations.go lines
263-279: speculative decode as ReadRequest, then Ack, then Err; a Data
decode is never attempted.  The Err attempt goes through a value-receiver
method, so the &errPkt returned on success still holds the zero value
whatever the buffer said. -/
def unmarshalBinary (buf : List Nat) : Except String Operation :=
  match rrqUnmarshalBinary buf with
  | .ok r => .ok (.rrq r)
  | .error _ =>
    match ackUnmarshalBinary buf with
    | .ok a => .ok (.ack a)
    | .error _ =>
      match errUnmarshalBinary buf with
      | .ok _ => .ok (.err { error := 0, message := [] })
      | .error _ => .error "buffer could not be unmarshaled into operation"

/-- One receive attempt on the client socket: conn.ReadFrom either fails
(a read deadline timeout or any other read error, both of which the client
logs and retries) or yields a datagram. -/
inductive RecvEvent where
  | readErr
  | dgram (bs : List Nat)

/-- The fresh 516-byte replyBuf after conn.ReadFrom copied a datagram into
it: the datagram truncated to DatagramSize and padded with the zero bytes
the buffer was allocated with.  The whole buffer, padding included, is what
the client hands to the decoder. -/
def replyBuf (bs : List Nat) : List Nat :=
  (bs ++ List.replicate DatagramSize 0).take DatagramSize

/-- Client.waitForData of the client source file, lines 95-115: up to
Retries receive attempts, one event each; a read error or a buffer that
does not decode as Data is logged and consumes the attempt; the first
successful Data decode is returned as the pair of block number and payload
bytes.  The second component is the index of the next unread event, so the
number of attempts a call consumed is observable. -/
def waitForData (evs : Nat → RecvEvent) : Nat → Nat → Except String (Nat × List Nat) × Nat
  | 0, idx => (.error "ran out of retries waiting for data", idx)
  | i + 1, idx =>
    match evs idx with
    | .readErr => waitForData evs i (idx + 1)
    | .dgram bs =>
      match dataUnmarshalBinary (replyBuf bs) with
      | .error _ => waitForData evs i (idx + 1)
      | .ok (block, payload) => (.ok (block, payload), idx + 1)

/-- Terminal results of Client.Send: success with the bytes written to the
output sink, the block numbers acknowledged and the next unread event
index; an error (waitForData failed, wrapped); or the iteration cap of the
model was reached. -/
inductive ClientResult where
  | ok (written : List Nat) (acks : List Nat) (next : Nat)
  | error (msg : String) (next : Nat)
  | fuelOut
deriving Repr, DecidableEq

/-- The receive loop of Client.Send, client source file lines 26-42, one
iteration per unit of fuel.  Each iteration calls waitForData; on error
Send returns the wrapped error; otherwise io.Copy appends the payload to
the output sink and returns n, the number of payload bytes copied (the
in-memory copy itself cannot fail; sink failures are out of scope), sendAck
sends an Ack echoing the decoded block number, and the loop runs again
exactly when n == DatagramSize.  The fuel only caps the iteration count of
the model: a decoded payload always holds BlockSize bytes, so the loop
condition n == DatagramSize is never true and one unit is always enough. -/
def clientSendLoop (evs : Nat → RecvEvent) (retries : Nat) :
    Nat → Nat → List Nat → List Nat → ClientResult
  | 0, _, _, _ => .fuelOut
  | fuel + 1, idx, written, acks =>
    match waitForData evs retries idx with
    | (.error e, idx2) => .error ("error waiting for data packet: " ++ e) idx2
    | (.ok (block, payload), idx2) =>
      if payload.length = DatagramSize then
        clientSendLoop evs retries fuel idx2 (written ++ payload) (acks ++ [block])
      else .ok (written ++ payload) (acks ++ [block]) idx2

/-- Client.Send of the client source file, lines 15-45: after sending the
read request (fire-and-forget, not part of the receive trace) the loop
variable n starts at DatagramSize, so the receive loop body runs at least
once and Send completes only through the loop. -/
def clientSend (evs : Nat → RecvEvent) (retries : Nat) (fuel : Nat) : ClientResult :=
  clientSendLoop evs retries fuel 0 [] []

/-- One inbound item of the dispatch loop: conn.ReadFrom on the listening
socket either fails at the transport level or yields a datagram. -/
inductive ServeEvent where
  | readErr (msg : String)
  | dgram (bs : List Nat)

/-- ReadRequest.UnmarshalBinary of src/pkg/tftp/server.go lines 176-210,
the variant the dispatch loop at lines 306-339 calls: op-code and filename
handling as in the operations.go variant, but the mode string keeps the
zero delimiter ReadString returned (no TrimRight on the mode), so the
comparison strings.ToLower(mode) == octet sees that trailing zero byte. -/
def serverRrqUnmarshalBinary : List Nat → Except String ReadRequest
  | b0 :: b1 :: rest =>
    if be16 b0 b1 ≠ 1 then .error "invalid code for read request packet"
    else
      match readString0 rest with
      | none => .error "error reading filename"
      | some (fname, rest2) =>
        if fname.length = 0 then .error "invalid filename"
        else
          match readString0 rest2 with
          | none => .error "invalid mode"
          | some (mode, _) =>
            if (mode ++ [0]).map asciiToLower ≠ octetBytes then
              .error "only binary transfers supported"
            else .ok { filename := fname, mode := mode ++ [0] }
  | _ => .error "binary does not contain OpCode header"

/-- Outcome of running Server.Serve, src/pkg/tftp/server.go lines 306-339,
over a finite prefix of inbound events: result is some wrapped message when
the loop hit a transport read failure and returned, none when it consumed
every event and is still serving.  handled lists the ReadRequests handed to
a session handler, in arrival order; badPackets counts datagrams whose
ReadRequest decode failed and were logged and discarded. -/
structure ServeOutcome where
  result : Option String
  handled : List ReadRequest
  badPackets : Nat
deriving Repr, DecidableEq

/-- Server.Serve, src/pkg/tftp/server.go lines 306-339: an unbounded loop
that allocates a fresh zero-filled DatagramSize buffer, reads the next
datagram into it, returns the wrapped read error on a transport failure,
logs and discards the datagram when the ReadRequest decode fails, and
spawns a handler for the decoded request otherwise.  (The nil-conn,
nil-payload and default Retries and Timeout checks of lines 307-321 run
before the loop and are not part of the per-datagram behavior modelled
here.) -/
def serve : List ServeEvent → ServeOutcome
  | [] => { result := none, handled := [], badPackets := 0 }
  | .readErr msg :: _ =>
    { result := some ("failed to read request into buffer: " ++ msg),
      handled := [], badPackets := 0 }
  | .dgram bs :: rest =>
    match serverRrqUnmarshalBinary (replyBuf bs) with
    | .error _ =>
      let o := serve rest
      { o with badPackets := o.badPackets + 1 }
    | .ok r =>
      let o := serve rest
      { o with handled := r :: o.handled }

/-- One receive attempt inside the RETRY loop of Server.handle: the read
with a deadline either times out (the loop retries), fails some other way
(the session logs and returns), or fills the receive buffer of the session.
The handle allocates its 516-byte buffer once and reuses it across reads,
so the event carries the full buffer content as it stands after the read:
for the first read that is the datagram padded with the zero bytes of the
fresh buffer, and later reads overwrite only their own prefix. -/
inductive SessionEvent where
  | timeout
  | readErr (msg : String)
  | dgram (buf : List Nat)

/-- The state of a server session between sending a datagram and receiving
the reply, Server.handle of src/pkg/tftp/server.go lines 218-289: the Data
value whose block field is the block number of the last sent packet and
whose reader holds the unsent payload, the bytes of the last marshalled
datagram (the RETRY loop re-sends exactly these), and the number of RETRY
iterations still available, the loop variable i of the Go loop. -/
structure SessionState where
  dataPkt : Data
  curData : List Nat
  retriesLeft : Nat
deriving Repr, DecidableEq

/-- Terminal results of Server.handle: the final log line of each return
path. -/
inductive SessionResult where
  | done (blocks : Nat)
  | exhausted
  | peerError
  | readFailed
  | marshalFailed
deriving Repr, DecidableEq

/-- The RETRY loop continuation shared by every non-matching receive during
a session (timeout, mismatched acknowledgement, undecodable packet): the
loop decrements i and, when iterations remain, re-sends the last datagram
and waits again; with none left the session logs exhausted retries and
returns. -/
def sessionRetry (st : SessionState) : List (List Nat) × (SessionState ⊕ SessionResult) :=
  if st.retriesLeft - 1 = 0 then ([], .inr .exhausted)
  else ([st.curData], .inl { st with retriesLeft := st.retriesLeft - 1 })

/-- One iteration head of the NEXTPACKET loop of Server.handle: marshal the
next Data packet (incrementing its block and consuming up to BlockSize
payload bytes), return on a marshal error, and enter the RETRY loop, whose
first action is to send the fresh datagram — unless the retry budget is
zero, in which case the loop body never runs and the session ends
exhausted without sending. -/
def sessionNextPacket (retries : Nat) (d : Data) :
    List (List Nat) × (SessionState ⊕ SessionResult) :=
  match dataMarshalBinary d with
  | (.error _, _) => ([], .inr .marshalFailed)
  | (.ok data, d2) =>
    if retries = 0 then ([], .inr .exhausted)
    else ([data], .inl { dataPkt := d2, curData := data, retriesLeft := retries })

/-- One receive of the RETRY loop of Server.handle, lines 248-282: on a
timeout, continue RETRY; on another read error, log and return; on a
datagram, a decoded Ack matching the current block continues NEXTPACKET
(whose for-condition re-checks that the last write moved DatagramSize
bytes, the length of the last datagram, and otherwise ends the transfer);
a decoded Ack with any other block number falls out of the switch and the
RETRY loop re-sends; a decoded Err logs and returns; anything else is a bad
packet and the RETRY loop re-sends. -/
def sessionStep (retries : Nat) (st : SessionState) :
    SessionEvent → List (List Nat) × (SessionState ⊕ SessionResult)
  | .timeout => sessionRetry st
  | .readErr _ => ([], .inr .readFailed)
  | .dgram buf =>
    match ackUnmarshalBinary buf with
    | .ok a =>
      if a = st.dataPkt.block then
        if st.curData.length ≠ DatagramSize then ([], .inr (.done st.dataPkt.block))
        else sessionNextPacket retries st.dataPkt
      else sessionRetry st
    | .error _ =>
      match errUnmarshalBinary buf with
      | .ok _ => ([], .inr .peerError)
      | .error _ => sessionRetry st

/-- Run a session over a finite script of receive events, collecting every
datagram it sends.  A result of none means the script ran out while the
session was still waiting for its next event. -/
def sessionRun (retries : Nat) :
    SessionState ⊕ SessionResult → List SessionEvent → List (List Nat) × Option SessionResult
  | .inr res, _ => ([], some res)
  | .inl _, [] => ([], none)
  | .inl st, ev :: rest =>
    let step := sessionStep retries st ev
    let tail := sessionRun retries step.2 rest
    (step.1 ++ tail.1, tail.2)

/-- Server.handle of src/pkg/tftp/server.go lines 218-289 for a fresh
transfer: a Data value over the shared payload with block zero, then the
NEXTPACKET loop entered with n initialized to DatagramSize, driven by the
given receive events. -/
def serverHandle (retries : Nat) (payload : List Nat) (evs : List SessionEvent) :
    List (List Nat) × Option SessionResult :=
  let start := sessionNextPacket retries { block := 0, payload := .bytes payload }
  let rest := sessionRun retries start.2 evs
  (start.1 ++ rest.1, rest.2)

/-- Whether one client receive attempt yields a successfully decoded Data
packet. -/
def recvDecodes : RecvEvent → Bool
  | .readErr => false
  | .dgram bs =>
    match dataUnmarshalBinary (replyBuf bs) with
    | .ok _ => true
    | .error _ => false

/-- The 516-byte Data datagram with block 1 and a full 512-byte payload of
sevens — the exact situation in which the claim requires the client to loop
back for more data. -/
def fullDataDgram : List Nat := [0, 3, 0, 1] ++ List.replicate 512 7

/-- Whether an inbound dispatch event is a datagram, as opposed to a
transport-level read failure. -/
def isDatagram : ServeEvent → Bool
  | .readErr _ => false
  | .dgram _ => true

theorem readString0_append (xs rest : List Nat) (h : 0 ∉ xs) :
    readString0 (xs ++ 0 :: rest) = some (xs, rest) := by
  induction xs with
  | nil => simp [readString0]
  | cons b bs ih =>
    have hb : b ≠ 0 := fun hb => h (hb ▸ List.mem_cons_self b bs)
    have hbs : 0 ∉ bs := fun hx => h (List.mem_cons_of_mem b hx)
    simp only [List.cons_append, readString0, if_neg hb, List.append_eq, ih hbs]

/-- C1: the round-trip claim fails at the Err variant, on the encode side
already: marshalling the Err value with code 1 and the four-byte message
oops returns an error instead of bytes, because Err.MarshalBinary does not
exempt the io.EOF that io.CopyN reports for every message shorter than
DatagramSize (Data.MarshalBinary does exempt it for its own CopyN call). -/
theorem c1_err_marshal_fails_on_short_message :
    errMarshalBinary { error := 1, message := [111, 111, 112, 115] }
      = .error "error writing error message to buffer: EOF" := rfl

/-- C5: for every block number b below 65536 and every in-memory payload,
Data.MarshalBinary succeeds, stores (b + 1) mod 65536 back into the block
field, advances the payload reader by the BlockSize bytes written, and the
two wire bytes after the op-code decode big-endian to that same
post-increment value — including the wraparound b = 65535 to wire value
0. -/
theorem c5_data_marshal_writes_incremented_block (b : Nat) (bs : List Nat)
    (_h : b < 65536) :
    dataMarshalBinary { block := b, payload := .bytes bs }
        = (.ok (u16be 3 ++ u16be ((b + 1) % 65536) ++ bs.take BlockSize),
           { block := (b + 1) % 65536, payload := .bytes (bs.drop BlockSize) })
      ∧ be16 ((b + 1) % 65536 / 256) ((b + 1) % 65536 % 256) = (b + 1) % 65536 := by
  constructor
  · rfl
  · unfold be16
    omega

/-- Witness for C5 at the wraparound block number 65535: the post-increment
block is 0 and the wire block bytes are 0, 0. -/
theorem c5_witness :
    65535 < 65536
    ∧ dataMarshalBinary { block := 65535, payload := .bytes [7] }
        = (.ok [0, 3, 0, 0, 7], { block := 0, payload := .bytes [] }) := by
  refine ⟨by norm_num, ?_⟩
  exact (c5_data_marshal_writes_incremented_block 65535 [7] (by norm_num)).1

/-- C10: every call to Data.MarshalBinary leaves the stored block field at
(block + 1) mod 65536, whatever the payload reader does; with a failing
reader the call returns the payload-copy error while the block field stays
incremented — encode is not atomic with respect to the block counter. -/
theorem c10_data_marshal_always_increments_block (d : Data) :
    (dataMarshalBinary d).2.block = (d.block + 1) % 65536
    ∧ (∀ msg, d.payload = .failing msg →
        (dataMarshalBinary d).1
          = .error ("error writing payload up to block size: " ++ msg)) := by
  obtain ⟨blk, pl⟩ := d
  cases pl with
  | bytes bs => exact ⟨rfl, fun msg hmsg => by simp at hmsg⟩
  | failing m => exact ⟨rfl, fun msg hmsg => by simp at hmsg; subst hmsg; rfl⟩

/-- Witness for C10: a failing payload reader at block 5 yields an encode
error while the block field has moved to 6. -/
theorem c10_witness :
    (dataMarshalBinary { block := 5, payload := .failing "boom" }).2.block = 6 % 65536
    ∧ (dataMarshalBinary { block := 5, payload := .failing "boom" }).1
        = .error ("error writing payload up to block size: " ++ "boom") := by
  have h := c10_data_marshal_always_increments_block { block := 5, payload := .failing "boom" }
  exact ⟨h.1, h.2 "boom" rfl⟩

/-- C9: the package-level classifier can only produce the three modelled
variants, and it never attempts a Data decode: every well-formed Data
buffer — op-code 3, total length between 4 and 516 — is accepted by
Data.UnmarshalBinary yet rejected by the classifier with the
could-not-be-unmarshaled error. -/
theorem c9_classifier_never_returns_data (b0 b1 b2 b3 : Nat) (rest : List Nat)
    (hop : be16 b0 b1 = 3) (hlen : rest.length ≤ 512) :
    dataUnmarshalBinary (b0 :: b1 :: b2 :: b3 :: rest) = .ok (be16 b2 b3, rest)
    ∧ unmarshalBinary (b0 :: b1 :: b2 :: b3 :: rest)
        = .error "buffer could not be unmarshaled into operation" := by
  have h4 : ¬ ((b0 :: b1 :: b2 :: b3 :: rest).length < 4) := by simp
  have h516 : ¬ (DatagramSize < (b0 :: b1 :: b2 :: b3 :: rest).length) := by
    simp only [List.length_cons, DatagramSize]
    omega
  constructor
  · simp only [dataUnmarshalBinary, List.length_cons, hop]
    rw [if_neg (by omega), if_neg (by simp only [DatagramSize]; omega)]
    simp
  · simp [unmarshalBinary, rrqUnmarshalBinary, ackUnmarshalBinary, errUnmarshalBinary, hop]

/-- Witness for C9: the five-byte Data buffer with block 1 and payload 7
decodes as Data but the classifier rejects it. -/
theorem c9_witness :
    be16 0 3 = 3 ∧ ([7] : List Nat).length ≤ 512
    ∧ dataUnmarshalBinary [0, 3, 0, 1, 7] = .ok (1, [7])
    ∧ unmarshalBinary [0, 3, 0, 1, 7]
        = .error "buffer could not be unmarshaled into operation" := by
  have h := c9_classifier_never_returns_data 0 3 0 1 [7] rfl (by norm_num)
  exact ⟨rfl, by norm_num, h.1, h.2⟩

/-- C6 counterexample: the buffer op-code 1, filename a, zero delimiter,
empty mode, zero delimiter begins with op-code 1 and a non-empty
zero-terminated filename, and its mode field (empty) is not a
case-insensitive match of octet — yet the decode fails with the
invalid-mode error, not the unsupported-mode error the claim names. -/
theorem c6_empty_mode_error_cex :
    rrqUnmarshalBinary [0, 1, 97, 0, 0] = .error "invalid mode"
    ∧ "invalid mode" ≠ "unsupported read request mode" :=
  ⟨rfl, by decide⟩

/-- C6 amended: for every buffer carrying op-code 1, a non-empty zero-free
filename with its zero delimiter, and a non-empty zero-free mode field with
its zero delimiter, the decode succeeds exactly when the mode is a
case-insensitive match of octet and otherwise fails with the
unsupported-mode error; a buffer whose mode field is empty or missing its
delimiter fails with the distinct invalid-mode error instead. -/
theorem c6_rrq_mode_rejection (f m tail : List Nat)
    (hf : f ≠ []) (hf0 : 0 ∉ f) (hm : m ≠ []) (hm0 : 0 ∉ m) :
    rrqUnmarshalBinary ([0, 1] ++ f ++ [0] ++ m ++ [0] ++ tail)
      = (if equalFoldOctet m then .ok { filename := f, mode := m }
         else .error "unsupported read request mode") := by
  have hsplit : ([0, 1] ++ f ++ [0] ++ m ++ [0] ++ tail)
      = 0 :: 1 :: (f ++ 0 :: (m ++ 0 :: tail)) := by simp
  rw [hsplit]
  have h1 : readString0 (f ++ 0 :: (m ++ 0 :: tail)) = some (f, m ++ 0 :: tail) :=
    readString0_append f (m ++ 0 :: tail) hf0
  have h2 : readString0 (m ++ 0 :: tail) = some (m, tail) :=
    readString0_append m tail hm0
  have hflen : ¬ (f.length = 0) := by simpa using hf
  have hmlen : ¬ (m.length = 0) := by simpa using hm
  cases hfold : equalFoldOctet m with
  | true =>
    simp [rrqUnmarshalBinary, be16, h1, h2, hflen, hmlen, hfold]
  | false =>
    simp [rrqUnmarshalBinary, be16, h1, h2, hflen, hmlen, hfold]

/-- Witness for C6: filename a with the upper-case mode variant OCTET
decodes successfully. -/
theorem c6_witness :
    ([97] : List Nat) ≠ [] ∧ (0 : Nat) ∉ ([97] : List Nat)
    ∧ ([79, 67, 84, 69, 84] : List Nat) ≠ [] ∧ (0 : Nat) ∉ ([79, 67, 84, 69, 84] : List Nat)
    ∧ rrqUnmarshalBinary [0, 1, 97, 0, 79, 67, 84, 69, 84, 0]
        = .ok { filename := [97], mode := [79, 67, 84, 69, 84] } := by
  have h := c6_rrq_mode_rejection [97] [79, 67, 84, 69, 84] []
    (by decide) (by decide) (by decide) (by decide)
  exact ⟨by decide, by decide, by decide, by decide, h⟩

/-- C7 counterexample: a 517-byte buffer with op-code 4 — longer than the
516-byte DatagramSize — still decodes successfully as an Ack with block 1:
only the Data decoder rejects oversized buffers. -/
theorem c7_oversized_ack_decodes_cex :
    ([0, 4, 0, 1] ++ List.replicate 513 0).length = 517
    ∧ ackUnmarshalBinary ([0, 4, 0, 1] ++ List.replicate 513 0) = .ok 1 :=
  ⟨by rw [List.length_append, List.length_replicate]; rfl, rfl⟩

/-- C7 amended: every buffer longer than DatagramSize fails the Data
decode with the size-limit error; the ReadRequest, Ack and Err decoders
place no upper bound on buffer length, so an oversized buffer can still
decode as one of those variants (see the Ack counterexample). -/
theorem c7_data_rejects_oversized (b : List Nat) (h : DatagramSize < b.length) :
    dataUnmarshalBinary b = .error "binary size exceeds DatagramSize limit" := by
  have h4 : ¬ (b.length < 4) := by
    simp only [DatagramSize] at h
    omega
  simp only [dataUnmarshalBinary, if_neg h4, if_pos h]

/-- Witness for C7: the all-zero 517-byte buffer is rejected by the Data
decoder. -/
theorem c7_witness :
    DatagramSize < (List.replicate 517 (0 : Nat)).length
    ∧ dataUnmarshalBinary (List.replicate 517 0)
        = .error "binary size exceeds DatagramSize limit" := by
  have h : DatagramSize < (List.replicate 517 (0 : Nat)).length := by
    rw [List.length_replicate]
    decide
  exact ⟨h, c7_data_rejects_oversized _ h⟩

theorem waitForData_exhausts (evs : Nat → RecvEvent) :
    ∀ R idx, (∀ k, k < R → recvDecodes (evs (idx + k)) = false) →
    waitForData evs R idx = (.error "ran out of retries waiting for data", idx + R) := by
  intro R
  induction R with
  | zero => intro idx h; simp [waitForData]
  | succ n ih =>
    intro idx h
    have h0 : recvDecodes (evs idx) = false := by simpa using h 0 (Nat.succ_pos n)
    have hrest : ∀ k, k < n → recvDecodes (evs (idx + 1 + k)) = false := by
      intro k hk
      have := h (k + 1) (Nat.succ_lt_succ hk)
      have harith : idx + (k + 1) = idx + 1 + k := by omega
      rwa [harith] at this
    have hnext : idx + 1 + n = idx + (n + 1) := by omega
    cases hev : evs idx with
    | readErr =>
      simp only [waitForData, hev]
      rw [ih (idx + 1) hrest, hnext]
    | dgram bs =>
      rw [hev] at h0
      simp only [recvDecodes] at h0
      cases hd : dataUnmarshalBinary (replyBuf bs) with
      | ok v =>
        rw [hd] at h0
        simp at h0
      | error e =>
        simp only [waitForData, hev, hd]
        rw [ih (idx + 1) hrest, hnext]

/-- C8: when none of the first R receive attempts yields a successfully
decoded Data packet — a timed-out or failed read and an undecodable buffer
each consume exactly one attempt — waitForData consumes exactly R events
and fails with the exhausted-retries error, and Client.Send fails with that
error wrapped, whatever the iteration cap. -/
theorem c8_send_exhausts_retries (evs : Nat → RecvEvent) (R : Nat)
    (h : ∀ k, k < R → recvDecodes (evs k) = false) :
    waitForData evs R 0 = (.error "ran out of retries waiting for data", R)
    ∧ ∀ fuel, clientSend evs R (fuel + 1)
        = .error ("error waiting for data packet: "
            ++ "ran out of retries waiting for data") R := by
  have hw := waitForData_exhausts evs R 0 (by simpa using h)
  have hw0 : waitForData evs R 0 = (.error "ran out of retries waiting for data", R) := by
    simpa using hw
  refine ⟨hw0, fun fuel => ?_⟩
  simp only [clientSend, clientSendLoop, hw0]

/-- Witness for C8: two receive attempts that both fail at the read leave
Send failing with the wrapped exhausted-retries error after exactly two
events. -/
theorem c8_witness :
    (∀ k, k < 2 → recvDecodes ((fun _ => RecvEvent.readErr) k) = false)
    ∧ clientSend (fun _ => RecvEvent.readErr) 2 1
        = .error ("error waiting for data packet: "
            ++ "ran out of retries waiting for data") 2 := by
  have h : ∀ k, k < 2 → recvDecodes ((fun _ => RecvEvent.readErr) k) = false := by
    intro k _
    rfl
  exact ⟨h, (c8_send_exhausts_retries (fun _ => RecvEvent.readErr) 2 h).2 0⟩

set_option maxRecDepth 8192 in
/-- C2: Client.Send against a peer that answers every receive with the
full-block Data packet fullDataDgram.  The first decoded payload has length
512, the block-size limit, so the claim requires the client to send Ack 1
and loop back to await the next Data packet; instead Send terminates
successfully right after that single Ack, with next event index 1 showing
that no further receive was attempted: the loop runs on n == DatagramSize,
and the payload byte count n can never reach 516. -/
theorem c2_client_stops_after_full_block :
    clientSend (fun _ => .dgram fullDataDgram) 10 5
      = .ok (List.replicate 512 7) [1] 1 := by
  rfl

/-- C3: the dispatch loop recovers locally from every decode failure: a
datagram whose ReadRequest decode fails only increments the bad-packet log
count while the loop goes on to the next receive; over any all-datagram
event list Serve never returns; and Serve returns an error exactly at a
transport-level read failure, with the wrapped read error, however many
datagrams preceded it. -/
theorem c3_serve_recovers_from_decode_failures (evs : List ServeEvent)
    (h : ∀ e ∈ evs, isDatagram e = true) :
    (serve evs).result = none
    ∧ (∀ msg rest, (serve (evs ++ ServeEvent.readErr msg :: rest)).result
        = some ("failed to read request into buffer: " ++ msg))
    ∧ (∀ bs rest2 msg2, serverRrqUnmarshalBinary (replyBuf bs) = .error msg2 →
        serve (ServeEvent.dgram bs :: rest2)
          = { serve rest2 with badPackets := (serve rest2).badPackets + 1 }) := by
  refine ⟨?_, ?_, ?_⟩
  · induction evs with
    | nil => rfl
    | cons e rest ih =>
      have he := h e (List.mem_cons_self e rest)
      have hrest : ∀ x ∈ rest, isDatagram x = true :=
        fun x hx => h x (List.mem_cons_of_mem e hx)
      cases e with
      | readErr m => simp [isDatagram] at he
      | dgram bs =>
        cases hd : serverRrqUnmarshalBinary (replyBuf bs) <;>
          simp [serve, hd, ih hrest]
  · intro msg rest
    induction evs with
    | nil => rfl
    | cons e tl ih =>
      have he := h e (List.mem_cons_self e tl)
      have htl : ∀ x ∈ tl, isDatagram x = true :=
        fun x hx => h x (List.mem_cons_of_mem e hx)
      cases e with
      | readErr m => simp [isDatagram] at he
      | dgram bs =>
        cases hd : serverRrqUnmarshalBinary (replyBuf bs) <;>
          simp [serve, hd, ih htl]
  · intro bs rest2 msg2 hd
    simp [serve, hd]

/-- Witness for C3: two datagrams that fail the ReadRequest decode leave
Serve still running, and a transport failure after them makes Serve return
the wrapped read error. -/
theorem c3_witness :
    (∀ e ∈ [ServeEvent.dgram [0, 9], ServeEvent.dgram [0, 1, 97, 0]], isDatagram e = true)
    ∧ (serve [ServeEvent.dgram [0, 9], ServeEvent.dgram [0, 1, 97, 0]]).result = none
    ∧ (serve [ServeEvent.dgram [0, 9], ServeEvent.dgram [0, 1, 97, 0],
          ServeEvent.readErr "boom"]).result
        = some ("failed to read request into buffer: " ++ "boom") := by
  have h : ∀ e ∈ [ServeEvent.dgram [0, 9], ServeEvent.dgram [0, 1, 97, 0]],
      isDatagram e = true := by
    intro e he
    fin_cases he <;> rfl
  have hc := c3_serve_recovers_from_decode_failures _ h
  exact ⟨h, hc.1, hc.2.1 "boom" []⟩

/-- C4 counterexample: a fresh session over the one-byte payload with a
retry budget of 2 marshals and sends Data block 1 as [0, 3, 0, 1, 7]; the
single receive event carries Ack 9 — mismatched against block 1 — and the
resulting trace holds that same datagram twice: the mismatched Ack, far
from leaving the session idle, made it re-send the last Data packet. -/
theorem c4_mismatched_ack_resend_cex :
    serverHandle 2 [7] [.dgram (replyBuf (ackMarshalBinary 9))]
      = ([[0, 3, 0, 1, 7], [0, 3, 0, 1, 7]], none) := by
  rfl

/-- C4 amended: on an Ack whose block number differs from that of the last
sent Data packet, the session leaves its Data value — block number and
payload cursor — untouched, but the mismatch consumes one RETRY iteration:
with iterations remaining the session re-sends the last Data datagram and
waits again, and with none remaining it terminates with exhausted
retries. -/
theorem c4_mismatched_ack_consumes_retry (retries : Nat) (st : SessionState)
    (buf : List Nat) (a : Nat) (ha : ackUnmarshalBinary buf = .ok a)
    (hne : a ≠ st.dataPkt.block) :
    sessionStep retries st (.dgram buf)
      = (if st.retriesLeft - 1 = 0 then ([], .inr .exhausted)
         else ([st.curData], .inl { st with retriesLeft := st.retriesLeft - 1 })) := by
  simp [sessionStep, ha, hne, sessionRetry]

/-- Witness for C4: the mismatched Ack 9 against current block 1 with two
retries remaining re-sends the last datagram and leaves the Data value
unchanged. -/
theorem c4_witness :
    ackUnmarshalBinary (replyBuf (ackMarshalBinary 9)) = .ok 9
    ∧ (9 : Nat) ≠ 1
    ∧ sessionStep 2
        { dataPkt := { block := 1, payload := .bytes [] },
          curData := [0, 3, 0, 1, 7], retriesLeft := 2 }
        (.dgram (replyBuf (ackMarshalBinary 9)))
      = ([[0, 3, 0, 1, 7]],
         .inl { dataPkt := { block := 1, payload := .bytes [] },
                curData := [0, 3, 0, 1, 7], retriesLeft := 1 }) := by
  have h := c4_mismatched_ack_consumes_retry 2
    { dataPkt := { block := 1, payload := .bytes [] },
      curData := [0, 3, 0, 1, 7], retriesLeft := 2 }
    (replyBuf (ackMarshalBinary 9)) 9 rfl (by decide)
  exact ⟨rfl, by decide, h⟩

end Tftp
